import Mathlib

/-!
Shallow embedding of the line_stamp_tool workflow engine
(src/db/models.py, src/db/crud.py, src/core/workflow.py, src/core/sd_api.py,
src/slack/bot.py) and proofs about the spec claims.

The database is modelled as in-memory lists of records; SQLAlchemy queries
become list filters, commits become functional record updates.  External
effects (random draws, the image client, the filesystem) are passed in as
explicit oracle arguments, and each background task body is embedded as a
pure function from the pre-state and the oracles to the post-state plus a
trace of the image-generation calls it issued.
-/

namespace LineStampTool

/-! ## Data model (src/db/models.py) -/

/-- One row of the stamp_sets table (class StampSet, models.py lines 9-48).
Timestamps are modelled as abstract Nat instants. -/
structure StampSet where
  id : Nat
  name : String
  genre : String
  character_description : Option String := none
  reference_image_path : Option String := none
  status : String := "direction_pending"
  approved_at : Option Nat := none
  lora_exported : Bool := false
  seed : Option Int := none
  character_consistency : Bool := true
  lora_model_path : Option String := none
  lora_status : String := "none"
  parent_set_id : Option Nat := none
  variation_theme : Option String := none
deriving DecidableEq

/-- One row of the stamps table (class Stamp, models.py lines 50-70). -/
structure Stamp where
  id : Nat
  set_id : Nat
  number : Nat
  phrase : String
  prompt : String
  negative_prompt : Option String := none
  image_path : Option String := none
  status : String := "pending"
  seed : Option Int := none
  is_sample : Bool := false
  retry_count : Nat := 0
deriving DecidableEq

/-- The fixed status enumeration (StampSet.STATUSES, models.py lines 38-48). -/
def setStatuses : List String :=
  ["direction_pending", "direction_approved", "patterns_pending",
   "patterns_approved", "samples_generating", "samples_review",
   "full_generating", "full_review", "completed"]

/-- The SQLite database contents: both tables. -/
structure DB where
  sets : List StampSet
  stamps : List Stamp
deriving DecidableEq

/-! ## Python truthiness

crud.py and workflow.py rely on Python truthiness tests (`if stamp.image_path`,
`seed + i if seed else ...`, `stamp_set.seed or random.randint(...)`): None,
0 and the empty string are falsy. -/

/-- Truthiness of an optional string: None and the empty string are falsy. -/
def truthyStr : Option String → Bool
  | none => false
  | some s => s ≠ ""

/-- Truthiness of an optional integer: None and 0 are falsy. -/
def truthyInt : Option Int → Bool
  | none => false
  | some n => n ≠ 0

/-! ## State store (src/db/crud.py)

SQLAlchemy mutates the single row found by primary key and commits; we model
this as replacing the first record matching the id. -/

/-- Replace the first element satisfying p by its image under f. -/
def updateFirst (p : α → Bool) (f : α → α) : List α → List α
  | [] => []
  | x :: xs => if p x then f x :: xs else x :: updateFirst p f xs

namespace StampSetCRUD

/-- StampSetCRUD.get (crud.py lines 31-32). -/
def get (db : DB) (set_id : Nat) : Option StampSet :=
  db.sets.find? (fun s => s.id == set_id)

/-- Statuses on which update_status also stamps approved_at (crud.py line 47). -/
def approvalStatuses : List String :=
  ["direction_approved", "patterns_approved", "completed"]

/-- StampSetCRUD.update_status (crud.py lines 43-51): writes the given status
unconditionally whenever the set exists; no transition validation. -/
def update_status (db : DB) (set_id : Nat) (status : String) (now : Nat) : DB :=
  let f : StampSet → StampSet := fun s =>
    { s with status := status,
             approved_at := if approvalStatuses.contains status then some now else s.approved_at }
  { db with sets := updateFirst (fun s => s.id == set_id) f db.sets }

/-- StampSetCRUD.update_seed (crud.py lines 77-83): overwrites unconditionally
whenever the set exists. -/
def update_seed (db : DB) (set_id : Nat) (seed : Int) : DB :=
  let f : StampSet → StampSet := fun s => { s with seed := some seed }
  { db with sets := updateFirst (fun s => s.id == set_id) f db.sets }

/-- StampSetCRUD.update_character_description (crud.py lines 61-67). -/
def update_character_description (db : DB) (set_id : Nat) (description : String) : DB :=
  let f : StampSet → StampSet := fun s => { s with character_description := some description }
  { db with sets := updateFirst (fun s => s.id == set_id) f db.sets }

/-- StampSetCRUD.mark_lora_exported (crud.py lines 101-107). -/
def mark_lora_exported (db : DB) (set_id : Nat) : DB :=
  let f : StampSet → StampSet := fun s => { s with lora_exported := true }
  { db with sets := updateFirst (fun s => s.id == set_id) f db.sets }

end StampSetCRUD

namespace StampCRUD

/-- StampCRUD.get (crud.py lines 129-130). -/
def get (db : DB) (stamp_id : Nat) : Option Stamp :=
  db.stamps.find? (fun s => s.id == stamp_id)

/-- Insert a stamp into a list sorted by number (stable). -/
def insertByNumber (s : Stamp) : List Stamp → List Stamp
  | [] => [s]
  | t :: ts => if s.number ≤ t.number then s :: t :: ts else t :: insertByNumber s ts

/-- Stable sort by the number column, modelling ORDER BY number. -/
def sortByNumber : List Stamp → List Stamp
  | [] => []
  | s :: ss => insertByNumber s (sortByNumber ss)

/-- StampCRUD.get_by_set without the is_sample filter (crud.py lines 132-136):
all stamps of the set ordered by number. -/
def get_by_set (db : DB) (set_id : Nat) : List Stamp :=
  sortByNumber (db.stamps.filter (fun s => s.set_id == set_id))

/-- StampCRUD.create (crud.py lines 113-127).  Never invoked by any workflow
method in the repository. -/
def create (db : DB) (new_id set_id number : Nat) (phrase prompt : String)
    (negative_prompt : Option String) (seed : Option Int) (is_sample : Bool) : DB × Stamp :=
  let stamp : Stamp :=
    { id := new_id, set_id := set_id, number := number, phrase := phrase,
      prompt := prompt, negative_prompt := negative_prompt, seed := seed,
      is_sample := is_sample }
  ({ db with stamps := db.stamps ++ [stamp] }, stamp)

/-- StampCRUD.increment_retry_count (crud.py lines 150-156). -/
def increment_retry_count (db : DB) (stamp_id : Nat) : DB :=
  let f : Stamp → Stamp := fun s => { s with retry_count := s.retry_count + 1 }
  { db with stamps := updateFirst (fun s => s.id == stamp_id) f db.stamps }

/-- StampCRUD.update_image_path (crud.py lines 166-172). -/
def update_image_path (db : DB) (stamp_id : Nat) (image_path : String) : DB :=
  let f : Stamp → Stamp := fun s => { s with image_path := some image_path }
  { db with stamps := updateFirst (fun s => s.id == stamp_id) f db.stamps }

end StampCRUD

/-! ## Image client (src/core/sd_api.py) -/

namespace StableDiffusionAPI

/-- StableDiffusionAPI.generate_image, response handling (sd_api.py lines
68-89).  The network outcome is an oracle value: none models a
RequestException / timeout / JSONDecodeError (each caught and turned into
None), some images models a parsed JSON response with its images list.
Every failure is returned as None; no exception escapes. -/
def generate_image (response : Option (List String)) : Option String :=
  match response with
  | none => none
  | some images =>
    match images with
    | [] => none
    | img :: _ => some img

end StableDiffusionAPI

/-! ## Filesystem results (src/core/image_utils.py, src/core/lora_trainer.py) -/

/-- Two-digit zero padding, modelling the {:02d} format. -/
def pad2 (n : Nat) : String :=
  if n < 10 then "0" ++ toString n else toString n

/-- The path returned by ImageProcessor.save_stamp_image (image_utils.py
lines 50-71): output/<set_id>/stamp_<number:02d>.png.  The filename does not
depend on is_sample. -/
def save_stamp_image (set_id : Nat) (number : Nat) : String :=
  "output/" ++ toString set_id ++ "/stamp_" ++ pad2 number ++ ".png"

/-- LoRATrainer.build_prompt_with_lora (lora_trainer.py lines 61-65);
lora_path is the oracle result of get_lora_path (a filesystem probe). -/
def build_prompt_with_lora (base_prompt : String) (set_id : Nat)
    (lora_path : Option String) : String :=
  match lora_path with
  | some p =>
    if p ≠ "" then base_prompt ++ " <lora:" ++ toString set_id ++ ":0.8>"
    else base_prompt
  | none => base_prompt

/-! ## Background task dispatch (src/core/workflow.py, threading.Thread)

Every stage method ends with threading.Thread(target=run_in_background,
daemon=True).start() with no registry, queue or per-set guard; we model the
pool of in-flight background tasks as a multiset of task descriptors. -/

/-- One spawned background unit of work. -/
inductive BackgroundTask
  | characterProposals (set_id : Nat)
  | phrasePatterns (set_id : Nat)
  | sampleStamps (set_id : Nat)
  | fullStamps (set_id : Nat)
deriving DecidableEq

/-- The in-flight background tasks of the process. -/
structure TaskRegistry where
  running : List BackgroundTask
deriving DecidableEq

/-- threading.Thread(...).start(): unconditionally adds a running task. -/
def spawn_task (r : TaskRegistry) (t : BackgroundTask) : TaskRegistry :=
  { running := t :: r.running }

/-- The synchronous path of StampWorkflowManager.generate_full_stamps
(workflow.py lines 383-480): defines run_in_background and immediately
spawns it; there is no inspection of already-running tasks, so the trigger
always proceeds (the Bool result is whether the trigger was accepted). -/
def generate_full_trigger (r : TaskRegistry) (set_id : Nat) : TaskRegistry × Bool :=
  (spawn_task r (BackgroundTask.fullStamps set_id), true)

/-- The synchronous path of StampWorkflowManager.generate_sample_stamps
(workflow.py lines 244-381): likewise spawns unconditionally. -/
def generate_sample_trigger (r : TaskRegistry) (set_id : Nat) : TaskRegistry × Bool :=
  (spawn_task r (BackgroundTask.sampleStamps set_id), true)

/-! ## Workflow engine background bodies (src/core/workflow.py)

Each body is a function of the pre-state plus oracles for the random number
generator (random.randint draws, keyed by position), the image client
network outcome (keyed by loop iteration index) and filesystem probes.  It
returns the post-state and the trace of image-generation calls issued. -/

/-- One call to StableDiffusionAPI.generate_image as issued by a workflow
loop: the arguments that the claims constrain. -/
structure GenCall where
  stamp_id : Nat
  number : Nat
  prompt : String
  negative_prompt : String
  seed : Int
  reference_image_path : Option String
deriving DecidableEq

/-- The per-stamp loop of generate_full_stamps (workflow.py lines 411-435),
over the enumerate(stamps) snapshot.  A stamp with a truthy image_path is
counted as done and skipped; otherwise current_seed = seed + stamp.number
when seed is truthy else a fresh draw (full_call records the arguments of
the image-client call), the image client is called, and on a truthy result
the produced path is persisted. -/
def full_call (consistency : Bool) (ref : Option String) (seed : Option Int)
    (freshPer : Nat → Int) (i : Nat) (st : Stamp) : GenCall :=
  { stamp_id := st.id, number := st.number, prompt := st.prompt,
    negative_prompt := st.negative_prompt.getD "",
    seed := if truthyInt seed then seed.getD 0 + (st.number : Int) else freshPer i,
    reference_image_path := if consistency then ref else none }

def full_loop (set_id : Nat) (consistency : Bool) (ref : Option String)
    (seed : Option Int) (freshPer : Nat → Int) (net : Nat → Option (List String)) :
    List (Nat × Stamp) → DB → DB × List GenCall
  | [], db => (db, [])
  | (i, st) :: rest, db =>
    if truthyStr st.image_path then
      full_loop set_id consistency ref seed freshPer net rest db
    else
      let call := full_call consistency ref seed freshPer i st
      let image_data := StableDiffusionAPI.generate_image (net i)
      if truthyStr image_data then
        let db1 := StampCRUD.update_image_path db st.id (save_stamp_image set_id st.number)
        let res := full_loop set_id consistency ref seed freshPer net rest db1
        (res.1, call :: res.2)
      else
        let res := full_loop set_id consistency ref seed freshPer net rest db
        (res.1, call :: res.2)

/-- The body of StampWorkflowManager.generate_full_stamps run_in_background
(workflow.py lines 385-478), non-exceptional path: existence check, status
write to full_generating, snapshot of the stamps, seed := stored seed if
truthy else a fresh draw (only under character consistency), the generation
loop, grid/export side effects, mark_lora_exported, status write to
completed. -/
def generate_full_stamps (db : DB) (set_id : Nat) (freshSeed : Int)
    (freshPer : Nat → Int) (net : Nat → Option (List String)) (now : Nat) :
    DB × List GenCall :=
  match StampSetCRUD.get db set_id with
  | none => (db, [])
  | some stamp_set =>
    let db1 := StampSetCRUD.update_status db set_id "full_generating" now
    let stamps := StampCRUD.get_by_set db1 set_id
    let seed : Option Int :=
      if stamp_set.character_consistency then
        some (if truthyInt stamp_set.seed then stamp_set.seed.getD 0 else freshSeed)
      else none
    let res := full_loop set_id stamp_set.character_consistency
      stamp_set.reference_image_path seed freshPer net stamps.enum db1
    let db2 := StampSetCRUD.mark_lora_exported res.1 set_id
    let db3 := StampSetCRUD.update_status db2 set_id "completed" now
    (db3, res.2)

/-- The per-stamp loop of generate_sample_stamps (workflow.py lines 278-306),
over enumerate(sample_stamps).  No skip check: every sample stamp is
generated; current_seed = seed + i (the 0-based loop index, not the stamp
ordinal) when seed is truthy else a fresh draw (sample_call records the
arguments of the image-client call); the prompt is rebuilt with the LoRA
tag when a trained model exists. -/
def sample_call (set_id : Nat) (consistency : Bool) (ref : Option String)
    (seed : Option Int) (freshPer : Nat → Int) (lora_path : Option String)
    (i : Nat) (st : Stamp) : GenCall :=
  { stamp_id := st.id, number := st.number,
    prompt := build_prompt_with_lora st.prompt set_id lora_path,
    negative_prompt := st.negative_prompt.getD "",
    seed := if truthyInt seed then seed.getD 0 + (i : Int) else freshPer i,
    reference_image_path := if consistency then ref else none }

def sample_loop (set_id : Nat) (consistency : Bool) (ref : Option String)
    (seed : Option Int) (freshPer : Nat → Int) (net : Nat → Option (List String))
    (lora_path : Option String) :
    List (Nat × Stamp) → DB → DB × List GenCall
  | [], db => (db, [])
  | (i, st) :: rest, db =>
    let call := sample_call set_id consistency ref seed freshPer lora_path i st
    let image_data := StableDiffusionAPI.generate_image (net i)
    if truthyStr image_data then
      let db1 := StampCRUD.update_image_path db st.id (save_stamp_image set_id st.number)
      let res := sample_loop set_id consistency ref seed freshPer net lora_path rest db1
      (res.1, call :: res.2)
    else
      let res := sample_loop set_id consistency ref seed freshPer net lora_path rest db
      (res.1, call :: res.2)

/-- The body of StampWorkflowManager.generate_sample_stamps run_in_background
(workflow.py lines 246-379), non-exceptional path: existence check, status
write to samples_generating, the first five stamps, early return to
patterns_approved when none exist, then (under character consistency) an
unconditional fresh base-seed draw persisted via update_seed, the sample
loop, grid side effect, status write to samples_review. -/
def generate_sample_stamps (db : DB) (set_id : Nat) (freshSeed : Int)
    (freshPer : Nat → Int) (net : Nat → Option (List String))
    (lora_path : Option String) (now : Nat) : DB × List GenCall :=
  match StampSetCRUD.get db set_id with
  | none => (db, [])
  | some stamp_set =>
    let db1 := StampSetCRUD.update_status db set_id "samples_generating" now
    let stamps := StampCRUD.get_by_set db1 set_id
    let sample_stamps := stamps.take 5
    if sample_stamps.isEmpty then
      (StampSetCRUD.update_status db1 set_id "patterns_approved" now, [])
    else
      let seed : Option Int :=
        if stamp_set.character_consistency then some freshSeed else none
      let db2 :=
        if stamp_set.character_consistency then StampSetCRUD.update_seed db1 set_id freshSeed
        else db1
      let res := sample_loop set_id stamp_set.character_consistency
        stamp_set.reference_image_path seed freshPer net lora_path sample_stamps.enum db2
      let db3 := StampSetCRUD.update_status res.1 set_id "samples_review" now
      (db3, res.2)

/-- Outcome reported by the phrase-generation task (its only observable
effect besides the returned database). -/
inductive PhraseGenResult
  | noCharacterDescription
  | generationFailed
  | proposed (phrases : List String)
deriving DecidableEq

/-- The body of StampWorkflowManager._generate_phrase_patterns
run_in_background (workflow.py lines 180-240): after the existence and
character_description checks it calls the prompt client (the phrases oracle;
malformed output is already an empty list, gemini.py lines 88-103) and only
posts a notification.  It performs no database write in any branch: no
Stamp rows are created and the status is never updated. -/
def generate_phrase_patterns (db : DB) (set_id : Nat) (phrases : List String) :
    DB × PhraseGenResult :=
  match StampSetCRUD.get db set_id with
  | none => (db, PhraseGenResult.noCharacterDescription)
  | some stamp_set =>
    if ¬ truthyStr stamp_set.character_description then
      (db, PhraseGenResult.noCharacterDescription)
    else if phrases.isEmpty then
      (db, PhraseGenResult.generationFailed)
    else
      (db, PhraseGenResult.proposed phrases)

/-- StampWorkflowManager.approve_direction (workflow.py lines 158-176):
validates only existence, writes status direction_approved (the chosen
proposal is not persisted; the index is discarded), then spawns the
phrase-generation background task.  Returns the new database, the new task
registry and the Bool result of the method. -/
def approve_direction (db : DB) (r : TaskRegistry) (set_id : Nat)
    (proposal_index : Nat) (now : Nat) : DB × TaskRegistry × Bool :=
  match StampSetCRUD.get db set_id with
  | none => (db, r, false)
  | some _ =>
    let db1 := StampSetCRUD.update_status db set_id "direction_approved" now
    let r1 := spawn_task r (BackgroundTask.phrasePatterns set_id)
    (db1, r1, true)

/-! ## Slack action wiring (src/slack/bot.py, src/core/workflow.py) -/

/-- The action ids for which SlackBot._setup_handlers registers a handler
(bot.py lines 43-135). -/
def registered_action_ids : List String :=
  ["select_stamp_type", "create_new_stamp_set", "show_help", "show_stamp_list",
   "has_reference_image_yes", "has_reference_image_no",
   "approve_direction_1", "approve_direction_2", "approve_direction_3",
   "request_new_proposals", "approve_phrases", "regenerate_phrases",
   "modify_phrases", "approve_samples", "reject_samples", "modify_individual"]

/-- The per-stamp button action ids emitted in the samples_review blocks by
generate_sample_stamps (workflow.py lines 336-352). -/
def sample_review_stamp_action_ids : List String :=
  ["approve_sample_stamp", "regenerate_stamp"]

/-! ## The transition graph of the specification

Modelled from the spec (section 4.1) for comparison with the code: the nine
stage states in order plus the two regeneration back-edges. -/

/-- Spec transition graph: validEdge a b holds when a -> b is one of the
defined edges. -/
def validEdge (a b : String) : Bool :=
  (a == "direction_pending" && b == "direction_approved") ||
  (a == "direction_approved" && b == "patterns_pending") ||
  (a == "patterns_pending" && b == "patterns_approved") ||
  (a == "patterns_approved" && b == "samples_generating") ||
  (a == "samples_generating" && b == "samples_review") ||
  (a == "samples_review" && b == "full_generating") ||
  (a == "full_generating" && b == "full_review") ||
  (a == "full_review" && b == "completed") ||
  (a == "samples_review" && b == "samples_generating") ||
  (a == "patterns_approved" && b == "patterns_pending")

/-! ## Helper lemmas: updateFirst and record lookups -/

theorem find?_updateFirst_eq (p : α → Bool) (f : α → α)
    (hp : ∀ x, p x = true → p (f x) = true) :
    ∀ l : List α, (updateFirst p f l).find? p = (l.find? p).map f := by
  intro l
  induction l with
  | nil => rfl
  | cons x xs ih =>
    by_cases h : p x = true
    · simp [updateFirst, h, List.find?_cons_of_pos, hp x h]
    · have hcons : updateFirst p f (x :: xs) = x :: updateFirst p f xs := by
        simp [updateFirst, h]
      rw [hcons, List.find?_cons_of_neg _ h, List.find?_cons_of_neg _ h, ih]

theorem find?_updateFirst_disjoint (p q : α → Bool) (f : α → α)
    (h : ∀ x, p x = true → q x = false ∧ q (f x) = false) :
    ∀ l : List α, (updateFirst p f l).find? q = l.find? q := by
  intro l
  induction l with
  | nil => rfl
  | cons x xs ih =>
    by_cases hx : p x = true
    · obtain ⟨h1, h2⟩ := h x hx
      simp [updateFirst, hx, List.find?_cons_of_neg, h1, h2]
    · have hcons : updateFirst p f (x :: xs) = x :: updateFirst p f xs := by
        simp [updateFirst, hx]
      by_cases hq : q x = true
      · rw [hcons, List.find?_cons_of_pos _ hq, List.find?_cons_of_pos _ hq]
      · rw [hcons, List.find?_cons_of_neg _ hq, List.find?_cons_of_neg _ hq, ih]

theorem updateFirst_of_forall_neg (p : α → Bool) (f : α → α) :
    ∀ l : List α, (∀ x ∈ l, p x = false) → updateFirst p f l = l := by
  intro l
  induction l with
  | nil => intro _; rfl
  | cons x xs ih =>
    intro h
    have hx := h x (List.mem_cons_self x xs)
    simp [updateFirst, hx, ih fun y hy => h y (List.mem_cons_of_mem x hy)]

namespace StampSetCRUD

theorem get_congr_sets {db1 db2 : DB} (h : db1.sets = db2.sets) (sid : Nat) :
    get db1 sid = get db2 sid := by
  unfold get; rw [h]

theorem get_update_status (db : DB) (sid : Nat) (v : String) (now : Nat) :
    get (update_status db sid v now) sid =
      (get db sid).map (fun s =>
        { s with status := v,
                 approved_at := if approvalStatuses.contains v then some now
                                else s.approved_at }) := by
  simp only [get, update_status]
  apply find?_updateFirst_eq
  intro x hx
  exact hx

theorem get_update_seed (db : DB) (sid : Nat) (v : Int) :
    get (update_seed db sid v) sid =
      (get db sid).map (fun s => { s with seed := some v }) := by
  simp only [get, update_seed]
  apply find?_updateFirst_eq
  intro x hx
  exact hx

theorem get_mark_lora_exported (db : DB) (sid : Nat) :
    get (mark_lora_exported db sid) sid =
      (get db sid).map (fun s => { s with lora_exported := true }) := by
  simp only [get, mark_lora_exported]
  apply find?_updateFirst_eq
  intro x hx
  exact hx

theorem stamps_update_status (db : DB) (sid : Nat) (v : String) (now : Nat) :
    (update_status db sid v now).stamps = db.stamps := rfl

theorem stamps_update_seed (db : DB) (sid : Nat) (v : Int) :
    (update_seed db sid v).stamps = db.stamps := rfl

theorem stamps_mark_lora_exported (db : DB) (sid : Nat) :
    (mark_lora_exported db sid).stamps = db.stamps := rfl

end StampSetCRUD

namespace StampCRUD

theorem get_congr_stamps {db1 db2 : DB} (h : db1.stamps = db2.stamps) (b : Nat) :
    get db1 b = get db2 b := by
  unfold get; rw [h]

theorem sets_update_image_path (db : DB) (a : Nat) (path : String) :
    (update_image_path db a path).sets = db.sets := rfl

theorem get_update_image_path_ne (db : DB) (a b : Nat) (path : String) (hab : a ≠ b) :
    get (update_image_path db a path) b = get db b := by
  simp only [get, update_image_path]
  refine find?_updateFirst_disjoint _ _ _ (fun x hx => ?_) _
  simp only [beq_iff_eq] at hx
  constructor <;> simp [hx, hab]

theorem get_by_set_congr_stamps {db1 db2 : DB} (h : db1.stamps = db2.stamps) (sid : Nat) :
    get_by_set db1 sid = get_by_set db2 sid := by
  unfold get_by_set; rw [h]

end StampCRUD

/-! ## Helper lemmas: the generation loops -/

theorem full_loop_cons_skip (sid : Nat) (c : Bool) (ref : Option String)
    (seed : Option Int) (fp : Nat → Int) (net : Nat → Option (List String))
    (i : Nat) (st : Stamp) (rest : List (Nat × Stamp)) (db : DB)
    (h : truthyStr st.image_path = true) :
    full_loop sid c ref seed fp net ((i, st) :: rest) db =
      full_loop sid c ref seed fp net rest db := by
  simp [full_loop, h]

theorem full_loop_cons_ok (sid : Nat) (c : Bool) (ref : Option String)
    (seed : Option Int) (fp : Nat → Int) (net : Nat → Option (List String))
    (i : Nat) (st : Stamp) (rest : List (Nat × Stamp)) (db : DB)
    (h : truthyStr st.image_path = false)
    (h2 : truthyStr (StableDiffusionAPI.generate_image (net i)) = true) :
    full_loop sid c ref seed fp net ((i, st) :: rest) db =
      ((full_loop sid c ref seed fp net rest
          (StampCRUD.update_image_path db st.id (save_stamp_image sid st.number))).1,
        full_call c ref seed fp i st ::
          (full_loop sid c ref seed fp net rest
            (StampCRUD.update_image_path db st.id (save_stamp_image sid st.number))).2) := by
  simp [full_loop, h, h2]

theorem full_loop_cons_fail (sid : Nat) (c : Bool) (ref : Option String)
    (seed : Option Int) (fp : Nat → Int) (net : Nat → Option (List String))
    (i : Nat) (st : Stamp) (rest : List (Nat × Stamp)) (db : DB)
    (h : truthyStr st.image_path = false)
    (h2 : truthyStr (StableDiffusionAPI.generate_image (net i)) = false) :
    full_loop sid c ref seed fp net ((i, st) :: rest) db =
      ((full_loop sid c ref seed fp net rest db).1,
        full_call c ref seed fp i st ::
          (full_loop sid c ref seed fp net rest db).2) := by
  simp [full_loop, h, h2]

theorem full_loop_sets (sid : Nat) (c : Bool) (ref : Option String)
    (seed : Option Int) (fp : Nat → Int) (net : Nat → Option (List String)) :
    ∀ (l : List (Nat × Stamp)) (db : DB),
      (full_loop sid c ref seed fp net l db).1.sets = db.sets := by
  intro l
  induction l with
  | nil => intro db; rfl
  | cons hd rest ih =>
    intro db
    obtain ⟨i, st⟩ := hd
    by_cases h1 : truthyStr st.image_path
    · rw [full_loop_cons_skip sid c ref seed fp net i st rest db h1]
      exact ih db
    · rw [Bool.not_eq_true] at h1
      by_cases h2 : truthyStr (StableDiffusionAPI.generate_image (net i))
      · rw [full_loop_cons_ok sid c ref seed fp net i st rest db h1 h2]
        exact ih _
      · rw [Bool.not_eq_true] at h2
        rw [full_loop_cons_fail sid c ref seed fp net i st rest db h1 h2]
        exact ih db

theorem full_loop_frame (sid : Nat) (c : Bool) (ref : Option String)
    (seed : Option Int) (fp : Nat → Int) (net : Nat → Option (List String)) (b : Nat) :
    ∀ (l : List (Nat × Stamp)) (db : DB),
      (∀ i st, (i, st) ∈ l → st.id = b →
        truthyStr st.image_path = true ∨
        truthyStr (StableDiffusionAPI.generate_image (net i)) = false) →
      StampCRUD.get (full_loop sid c ref seed fp net l db).1 b = StampCRUD.get db b := by
  intro l
  induction l with
  | nil => intro db _; rfl
  | cons hd rest ih =>
    intro db h
    obtain ⟨i, st⟩ := hd
    have hrest : ∀ j y, (j, y) ∈ rest → y.id = b →
        truthyStr y.image_path = true ∨
        truthyStr (StableDiffusionAPI.generate_image (net j)) = false :=
      fun j y hy hid => h j y (List.mem_cons_of_mem _ hy) hid
    by_cases h1 : truthyStr st.image_path
    · rw [full_loop_cons_skip sid c ref seed fp net i st rest db h1]
      exact ih db hrest
    · rw [Bool.not_eq_true] at h1
      by_cases h2 : truthyStr (StableDiffusionAPI.generate_image (net i))
      · rw [full_loop_cons_ok sid c ref seed fp net i st rest db h1 h2]
        have hne : st.id ≠ b := by
          intro hid
          rcases h i st (List.mem_cons_self _ _) hid with hc | hc
          · simp [h1] at hc
          · simp [h2] at hc
        rw [ih _ hrest]
        exact StampCRUD.get_update_image_path_ne db st.id b _ hne
      · rw [Bool.not_eq_true] at h2
        rw [full_loop_cons_fail sid c ref seed fp net i st rest db h1 h2]
        exact ih db hrest

theorem full_loop_calls_sound (sid : Nat) (c : Bool) (ref : Option String)
    (seed : Option Int) (fp : Nat → Int) (net : Nat → Option (List String)) :
    ∀ (l : List (Nat × Stamp)) (db : DB),
      ∀ cl ∈ (full_loop sid c ref seed fp net l db).2,
        ∃ i st, (i, st) ∈ l ∧ cl = full_call c ref seed fp i st ∧
          truthyStr st.image_path = false := by
  intro l
  induction l with
  | nil => intro db cl hcl; cases hcl
  | cons hd rest ih =>
    intro db cl hcl
    obtain ⟨i, st⟩ := hd
    by_cases h1 : truthyStr st.image_path
    · rw [full_loop_cons_skip sid c ref seed fp net i st rest db h1] at hcl
      obtain ⟨j, y, hy, hcall, hmiss⟩ := ih db cl hcl
      exact ⟨j, y, List.mem_cons_of_mem _ hy, hcall, hmiss⟩
    · rw [Bool.not_eq_true] at h1
      by_cases h2 : truthyStr (StableDiffusionAPI.generate_image (net i))
      · rw [full_loop_cons_ok sid c ref seed fp net i st rest db h1 h2] at hcl
        rcases List.mem_cons.mp hcl with hhd | htl
        · exact ⟨i, st, List.mem_cons_self _ _, hhd, h1⟩
        · obtain ⟨j, y, hy, hcall, hmiss⟩ := ih _ cl htl
          exact ⟨j, y, List.mem_cons_of_mem _ hy, hcall, hmiss⟩
      · rw [Bool.not_eq_true] at h2
        rw [full_loop_cons_fail sid c ref seed fp net i st rest db h1 h2] at hcl
        rcases List.mem_cons.mp hcl with hhd | htl
        · exact ⟨i, st, List.mem_cons_self _ _, hhd, h1⟩
        · obtain ⟨j, y, hy, hcall, hmiss⟩ := ih db cl htl
          exact ⟨j, y, List.mem_cons_of_mem _ hy, hcall, hmiss⟩

theorem full_loop_calls_complete (sid : Nat) (c : Bool) (ref : Option String)
    (seed : Option Int) (fp : Nat → Int) (net : Nat → Option (List String)) :
    ∀ (l : List (Nat × Stamp)) (db : DB) (i : Nat) (st : Stamp),
      (i, st) ∈ l → truthyStr st.image_path = false →
      full_call c ref seed fp i st ∈ (full_loop sid c ref seed fp net l db).2 := by
  intro l
  induction l with
  | nil => intro db i st hmem _; cases hmem
  | cons hd rest ih =>
    intro db i st hmem hmiss
    obtain ⟨j, y⟩ := hd
    rcases List.mem_cons.mp hmem with hhd | htl
    · injection hhd with hji hyst
      subst hji
      subst hyst
      by_cases h2 : truthyStr (StableDiffusionAPI.generate_image (net i))
      · rw [full_loop_cons_ok sid c ref seed fp net i st rest db hmiss h2]
        exact List.mem_cons_self _ _
      · rw [Bool.not_eq_true] at h2
        rw [full_loop_cons_fail sid c ref seed fp net i st rest db hmiss h2]
        exact List.mem_cons_self _ _
    · by_cases h1 : truthyStr y.image_path
      · rw [full_loop_cons_skip sid c ref seed fp net j y rest db h1]
        exact ih db i st htl hmiss
      · rw [Bool.not_eq_true] at h1
        by_cases h2 : truthyStr (StableDiffusionAPI.generate_image (net j))
        · rw [full_loop_cons_ok sid c ref seed fp net j y rest db h1 h2]
          exact List.mem_cons_of_mem _ (ih _ i st htl hmiss)
        · rw [Bool.not_eq_true] at h2
          rw [full_loop_cons_fail sid c ref seed fp net j y rest db h1 h2]
          exact List.mem_cons_of_mem _ (ih db i st htl hmiss)

theorem full_loop_all_fail (sid : Nat) (c : Bool) (ref : Option String)
    (seed : Option Int) (fp : Nat → Int) (net : Nat → Option (List String))
    (hf : ∀ i, truthyStr (StableDiffusionAPI.generate_image (net i)) = false) :
    ∀ (l : List (Nat × Stamp)) (db : DB),
      (full_loop sid c ref seed fp net l db).1 = db := by
  intro l
  induction l with
  | nil => intro db; rfl
  | cons hd rest ih =>
    intro db
    obtain ⟨i, st⟩ := hd
    by_cases h1 : truthyStr st.image_path
    · rw [full_loop_cons_skip sid c ref seed fp net i st rest db h1]
      exact ih db
    · rw [Bool.not_eq_true] at h1
      rw [full_loop_cons_fail sid c ref seed fp net i st rest db h1 (hf i)]
      exact ih db

theorem sample_loop_cons (sid : Nat) (c : Bool) (ref : Option String)
    (seed : Option Int) (fp : Nat → Int) (net : Nat → Option (List String))
    (lp : Option String) (i : Nat) (st : Stamp) (rest : List (Nat × Stamp)) (db : DB) :
    (sample_loop sid c ref seed fp net lp ((i, st) :: rest) db).2 =
      sample_call sid c ref seed fp lp i st ::
        (sample_loop sid c ref seed fp net lp rest
          (if truthyStr (StableDiffusionAPI.generate_image (net i)) then
            StampCRUD.update_image_path db st.id (save_stamp_image sid st.number)
          else db)).2 := by
  by_cases h2 : truthyStr (StableDiffusionAPI.generate_image (net i))
  · simp [sample_loop, h2]
  · rw [Bool.not_eq_true] at h2
    simp [sample_loop, h2]

theorem sample_loop_sets (sid : Nat) (c : Bool) (ref : Option String)
    (seed : Option Int) (fp : Nat → Int) (net : Nat → Option (List String))
    (lp : Option String) :
    ∀ (l : List (Nat × Stamp)) (db : DB),
      (sample_loop sid c ref seed fp net lp l db).1.sets = db.sets := by
  intro l
  induction l with
  | nil => intro db; rfl
  | cons hd rest ih =>
    intro db
    obtain ⟨i, st⟩ := hd
    by_cases h2 : truthyStr (StableDiffusionAPI.generate_image (net i))
    · have : (sample_loop sid c ref seed fp net lp ((i, st) :: rest) db).1 =
        (sample_loop sid c ref seed fp net lp rest
          (StampCRUD.update_image_path db st.id (save_stamp_image sid st.number))).1 := by
        simp [sample_loop, h2]
      rw [this]
      exact ih _
    · rw [Bool.not_eq_true] at h2
      have : (sample_loop sid c ref seed fp net lp ((i, st) :: rest) db).1 =
        (sample_loop sid c ref seed fp net lp rest db).1 := by
        simp [sample_loop, h2]
      rw [this]
      exact ih db

theorem sample_loop_calls (sid : Nat) (c : Bool) (ref : Option String)
    (seed : Option Int) (fp : Nat → Int) (net : Nat → Option (List String))
    (lp : Option String) :
    ∀ (l : List (Nat × Stamp)) (db : DB),
      (sample_loop sid c ref seed fp net lp l db).2 =
        l.map (fun p => sample_call sid c ref seed fp lp p.1 p.2) := by
  intro l
  induction l with
  | nil => intro db; rfl
  | cons hd rest ih =>
    intro db
    obtain ⟨i, st⟩ := hd
    rw [sample_loop_cons, List.map_cons, ih]

/-! ## Concrete fixtures used in counterexamples and witnesses -/

/-- A one-set fixture with the given status and stored seed. -/
def mkSet (status : String) (seed : Option Int) : StampSet :=
  { id := 1, name := "Cat", genre := "animal",
    character_description := some "a friendly cat", status := status, seed := seed }

/-- An item fixture belonging to set 1. -/
def mkStamp (id number : Nat) (image_path : Option String) : Stamp :=
  { id := id, set_id := 1, number := number, phrase := "hello",
    prompt := "cat greeting", image_path := image_path }

/-- Fixture database: one consistency-enabled set with stored base seed 42
and one artifact-less item with ordinal 1. -/
def seededDB : DB :=
  { sets := [mkSet "samples_review" (some 42)], stamps := [mkStamp 10 1 none] }

/-! ## Claim C1 -/

/-- C1 counterexample: the edge direction_pending to full_generating is not
in the transition graph, yet invoking full generation on a set whose status
is direction_pending is not rejected: it rewrites the status (ending at
completed), so the observed status sequence is not a walk on the graph and
the invalid action mutated state. -/
theorem C1_counterexample_invalid_action_mutates :
    validEdge "direction_pending" "full_generating" = false ∧
    validEdge "direction_pending" "completed" = false ∧
    (StampSetCRUD.get
        (generate_full_stamps { sets := [mkSet "direction_pending" none], stamps := [] }
          1 7 (fun _ => 7) (fun _ => none) 0).1 1).map (fun s => s.status) =
      some "completed" :=
  ⟨rfl, rfl, rfl⟩

/-- C1 amended: the engine performs no transition validation.  Operations
check only that the Set exists; update_status overwrites the status with
whatever value it is given, so a full-generation trigger applied in a
status with no outgoing edge to full_generating is not rejected and drives
the Set to completed regardless. -/
theorem C1_amended_no_transition_validation (db : DB) (sid : Nat) (st : StampSet)
    (f : Int) (fp : Nat → Int) (net : Nat → Option (List String)) (now : Nat)
    (hget : StampSetCRUD.get db sid = some st)
    (hinvalid : validEdge st.status "full_generating" = false) :
    (StampSetCRUD.get (generate_full_stamps db sid f fp net now).1 sid).map
      (fun s => s.status) = some "completed" := by
  simp only [generate_full_stamps, hget]
  rw [StampSetCRUD.get_update_status, StampSetCRUD.get_mark_lora_exported,
    StampSetCRUD.get_congr_sets (full_loop_sets _ _ _ _ _ _ _ _) sid,
    StampSetCRUD.get_update_status, hget]
  rfl

/-- Witness for C1_amended_no_transition_validation at the concrete fixture. -/
theorem C1_amended_no_transition_validation_witness :
    (StampSetCRUD.get { sets := [mkSet "direction_pending" none], stamps := [] } 1 =
      some (mkSet "direction_pending" none)) ∧
    validEdge (mkSet "direction_pending" none).status "full_generating" = false ∧
    (StampSetCRUD.get
        (generate_full_stamps { sets := [mkSet "direction_pending" none], stamps := [] }
          1 9 (fun _ => 9) (fun _ => some ["img"]) 3).1 1).map (fun s => s.status) =
      some "completed" :=
  ⟨rfl, rfl,
    C1_amended_no_transition_validation _ 1 (mkSet "direction_pending" none)
      9 (fun _ => 9) (fun _ => some ["img"]) 3 rfl rfl⟩

/-! ## Claim C2 -/

/-- C2 counterexample: two full-generation triggers for the same set id both
proceed (both return true) and leave two in-flight background tasks for
that id; the second is not rejected. -/
theorem C2_counterexample_concurrent_triggers_both_proceed :
    (generate_full_trigger { running := [] } 1).2 = true ∧
    (generate_full_trigger (generate_full_trigger { running := [] } 1).1 1).2 = true ∧
    ((generate_full_trigger (generate_full_trigger { running := [] } 1).1 1).1.running.countP
      (fun t => decide (t = BackgroundTask.fullStamps 1)) = 2) :=
  ⟨rfl, rfl, rfl⟩

/-- C2 amended: there is no per-set concurrency guard at all.  Every stage
trigger unconditionally spawns one more background task for the set,
whatever tasks are already running, and always reports success. -/
theorem C2_amended_every_trigger_spawns (r : TaskRegistry) (sid : Nat) :
    (generate_full_trigger r sid).2 = true ∧
    (generate_full_trigger r sid).1.running.countP
        (fun t => decide (t = BackgroundTask.fullStamps sid)) =
      r.running.countP (fun t => decide (t = BackgroundTask.fullStamps sid)) + 1 := by
  refine ⟨rfl, ?_⟩
  simp [generate_full_trigger, spawn_task, List.countP_cons]

/-! ## Claim C4 -/

/-- C4 counterexample: a set with persisted base seed 42 re-enters sample
generation; the engine draws a fresh base seed (here 100) and overwrites
the persisted one, so the base seed is not write-once. -/
theorem C4_counterexample_base_seed_overwritten :
    (StampSetCRUD.get seededDB 1).map (fun s => s.seed) = some (some 42) ∧
    (StampSetCRUD.get
        (generate_sample_stamps seededDB 1 100 (fun _ => 0) (fun _ => some ["img"]) none 0).1
        1).map (fun s => s.seed) = some (some 100) ∧
    some (some (100 : Int)) ≠ some (some (42 : Int)) :=
  ⟨rfl, rfl, by decide⟩

/-- C4 amended: sample generation never checks for an existing base seed.
Whenever the set exists, consistency is enabled and it has at least one
item, the invocation draws a fresh base seed and persists it via the
unconditional update_seed, overwriting whatever seed was stored before. -/
theorem C4_amended_sample_generation_overwrites_seed (db : DB) (sid : Nat)
    (st : StampSet) (B : Int) (fp : Nat → Int) (net : Nat → Option (List String))
    (lp : Option String) (now : Nat)
    (hget : StampSetCRUD.get db sid = some st)
    (hcons : st.character_consistency = true)
    (hne : StampCRUD.get_by_set db sid ≠ []) :
    (StampSetCRUD.get (generate_sample_stamps db sid B fp net lp now).1 sid).map
      (fun s => s.seed) = some (some B) := by
  have hstamps : StampCRUD.get_by_set
      (StampSetCRUD.update_status db sid "samples_generating" now) sid =
      StampCRUD.get_by_set db sid := rfl
  have hempty : (StampCRUD.get_by_set db sid).take 5 ≠ [] := by
    intro h
    rcases List.take_eq_nil_iff.mp h with h5 | hnil
    · exact absurd h5 (by decide)
    · exact hne hnil
  simp only [generate_sample_stamps, hget, hcons, if_true, hstamps]
  rw [if_neg (by simpa [List.isEmpty_iff] using hempty)]
  rw [StampSetCRUD.get_update_status,
    StampSetCRUD.get_congr_sets (sample_loop_sets _ _ _ _ _ _ _ _ _) sid,
    StampSetCRUD.get_update_seed, StampSetCRUD.get_update_status, hget]
  rfl

/-- Witness for C4_amended_sample_generation_overwrites_seed at the
concrete fixture (previous seed 42, fresh draw 100). -/
theorem C4_amended_sample_generation_overwrites_seed_witness :
    (StampSetCRUD.get seededDB 1 = some (mkSet "samples_review" (some 42))) ∧
    (mkSet "samples_review" (some 42)).character_consistency = true ∧
    StampCRUD.get_by_set seededDB 1 ≠ [] ∧
    (StampSetCRUD.get
        (generate_sample_stamps seededDB 1 100 (fun _ => 5) (fun _ => none) none 0).1
        1).map (fun s => s.seed) = some (some 100) :=
  ⟨rfl, rfl, by decide,
    C4_amended_sample_generation_overwrites_seed seededDB 1
      (mkSet "samples_review" (some 42)) 100 (fun _ => 5) (fun _ => none) none 0
      rfl rfl (by decide)⟩

/-! ## Claim C5 -/

/-- C5: the phrase-generation task never touches the database.  In every
branch, including a successful prompt-client response with three phrases,
the database is returned unchanged: no Item rows are created, no ordinals
assigned and the status is not updated to patterns_approved.  Evaluated as
well at the concrete failing input (set 1 with a character description and
phrases a, b, c, where the task merely reports the proposed phrases). -/
theorem C5_phrase_generation_creates_no_items :
    (∀ (db : DB) (sid : Nat) (phrases : List String),
      (generate_phrase_patterns db sid phrases).1 = db) ∧
    (generate_phrase_patterns
        { sets := [mkSet "direction_approved" none], stamps := [] } 1
        ["a", "b", "c"]).2 = PhraseGenResult.proposed ["a", "b", "c"] ∧
    (generate_phrase_patterns
        { sets := [mkSet "direction_approved" none], stamps := [] } 1
        ["a", "b", "c"]).1 =
      { sets := [mkSet "direction_approved" none], stamps := [] } := by
  refine ⟨?_, rfl, rfl⟩
  intro db sid phrases
  unfold generate_phrase_patterns
  cases StampSetCRUD.get db sid with
  | none => rfl
  | some st =>
    by_cases h1 : truthyStr st.character_description
    · by_cases h2 : phrases.isEmpty <;> simp [h1, h2]
    · simp [h1]

/-! ## Claim C7 -/

/-- C7 counterexample: approving a direction moves the set to
direction_approved, not patterns_pending, and leaves the character
description exactly as it was (the selected proposal is discarded). -/
theorem C7_counterexample_approve_direction_status :
    ((StampSetCRUD.get
        (approve_direction { sets := [mkSet "direction_pending" none], stamps := [] }
          { running := [] } 1 2 5).1 1).map (fun s => s.status) =
      some "direction_approved") ∧
    some "direction_approved" ≠ some "patterns_pending" ∧
    ((StampSetCRUD.get
        (approve_direction { sets := [mkSet "direction_pending" none], stamps := [] }
          { running := [] } 1 2 5).1 1).map (fun s => s.character_description) =
      some (some "a friendly cat")) :=
  ⟨rfl, by decide, rfl⟩

/-- C7 amended: for every existing set, approve_direction succeeds,
transitions the set to direction_approved (not patterns_pending), leaves
the character description unchanged (no proposal is persisted; the chosen
index is discarded) and spawns the phrase-generation background task. -/
theorem C7_amended_approve_direction (db : DB) (r : TaskRegistry)
    (sid pidx now : Nat) (st : StampSet)
    (hget : StampSetCRUD.get db sid = some st) :
    (approve_direction db r sid pidx now).2.2 = true ∧
    ((StampSetCRUD.get (approve_direction db r sid pidx now).1 sid).map
        (fun s => s.status) = some "direction_approved") ∧
    ((StampSetCRUD.get (approve_direction db r sid pidx now).1 sid).map
        (fun s => s.character_description) = some st.character_description) ∧
    (approve_direction db r sid pidx now).2.1 =
      spawn_task r (BackgroundTask.phrasePatterns sid) := by
  have heq : approve_direction db r sid pidx now =
      (StampSetCRUD.update_status db sid "direction_approved" now,
        spawn_task r (BackgroundTask.phrasePatterns sid), true) := by
    simp [approve_direction, hget]
  rw [heq]
  refine ⟨rfl, ?_, ?_, rfl⟩
  · rw [StampSetCRUD.get_update_status, hget]; rfl
  · rw [StampSetCRUD.get_update_status, hget]; rfl

/-- Witness for C7_amended_approve_direction at the concrete fixture. -/
theorem C7_amended_approve_direction_witness :
    (StampSetCRUD.get { sets := [mkSet "direction_pending" none], stamps := [] } 1 =
      some (mkSet "direction_pending" none)) ∧
    ((approve_direction { sets := [mkSet "direction_pending" none], stamps := [] }
        { running := [] } 1 3 7).2.2 = true ∧
      ((StampSetCRUD.get
          (approve_direction { sets := [mkSet "direction_pending" none], stamps := [] }
            { running := [] } 1 3 7).1 1).map (fun s => s.status) =
        some "direction_approved") ∧
      ((StampSetCRUD.get
          (approve_direction { sets := [mkSet "direction_pending" none], stamps := [] }
            { running := [] } 1 3 7).1 1).map (fun s => s.character_description) =
        some (mkSet "direction_pending" none).character_description) ∧
      (approve_direction { sets := [mkSet "direction_pending" none], stamps := [] }
          { running := [] } 1 3 7).2.1 =
        spawn_task { running := [] } (BackgroundTask.phrasePatterns 1)) :=
  ⟨rfl, C7_amended_approve_direction _ _ 1 3 7 (mkSet "direction_pending" none) rfl⟩

/-! ## Claim C9 -/

/-- C9: the sample-review message renders a per-stamp regenerate button
with action id regenerate_stamp, but the bot registers no handler for that
action id, so clicking it does nothing: no single-item regeneration runs
and increment_retry_count is never reached. -/
theorem C9_regenerate_stamp_handler_missing :
    "regenerate_stamp" ∈ sample_review_stamp_action_ids ∧
    "regenerate_stamp" ∉ registered_action_ids := by
  constructor
  · simp [sample_review_stamp_action_ids]
  · simp [registered_action_ids]

/-! ## Helper lemmas: enumerate bookkeeping -/

theorem mem_of_mem_enum {α : Type _} {l : List α} {p : Nat × α}
    (h : p ∈ l.enum) : p.2 ∈ l :=
  List.getElem?_mem (List.mem_enum_iff_getElem?.mp h)

theorem enum_index_unique {α : Type _} {l : List α} (hnd : l.Nodup) {i j : Nat}
    {x : α} (hi : l[i]? = some x) (hj : l[j]? = some x) : i = j := by
  have hlen : i < l.length := (List.getElem?_eq_some_iff.mp hi).1
  exact List.getElem?_inj hlen hnd (hi.trans hj.symm)

theorem map_fst_fun_enum {α β : Type _} (l : List α) (g : Nat → β) :
    l.enum.map (fun p => g p.1) = (List.range l.length).map g := by
  have h1 : l.enum.map (fun p => g p.1) = (l.enum.map Prod.fst).map g := by
    rw [List.map_map]; rfl
  rw [h1, List.enum_eq_enumFrom, List.enumFrom_map_fst, ← List.range_eq_range']

/-! ## Claim C10 -/

/-- C10: whenever the set exists, the non-exceptional full-generation run
ends with status completed and the export flag true, with no condition on
how many image calls succeeded; and when every image call fails (network
outage), not a single stamp row changes, yet those writes still happen. -/
theorem C10_full_generation_always_completes (db : DB) (sid : Nat) (st : StampSet)
    (f : Int) (fp : Nat → Int) (net : Nat → Option (List String)) (now : Nat)
    (hget : StampSetCRUD.get db sid = some st) :
    ((StampSetCRUD.get (generate_full_stamps db sid f fp net now).1 sid).map
        (fun s => s.status) = some "completed") ∧
    ((StampSetCRUD.get (generate_full_stamps db sid f fp net now).1 sid).map
        (fun s => s.lora_exported) = some true) ∧
    ((∀ i, net i = none) →
      (generate_full_stamps db sid f fp net now).1.stamps = db.stamps) := by
  refine ⟨?_, ?_, ?_⟩
  · simp only [generate_full_stamps, hget]
    rw [StampSetCRUD.get_update_status, StampSetCRUD.get_mark_lora_exported,
      StampSetCRUD.get_congr_sets (full_loop_sets _ _ _ _ _ _ _ _) sid,
      StampSetCRUD.get_update_status, hget]
    rfl
  · simp only [generate_full_stamps, hget]
    rw [StampSetCRUD.get_update_status, StampSetCRUD.get_mark_lora_exported,
      StampSetCRUD.get_congr_sets (full_loop_sets _ _ _ _ _ _ _ _) sid,
      StampSetCRUD.get_update_status, hget]
    rfl
  · intro hnet
    have hfail : ∀ i, truthyStr (StableDiffusionAPI.generate_image (net i)) = false := by
      intro i; rw [hnet i]; rfl
    simp only [generate_full_stamps, hget]
    rw [StampSetCRUD.stamps_update_status, StampSetCRUD.stamps_mark_lora_exported,
      full_loop_all_fail _ _ _ _ _ _ hfail]
    rfl

/-- Witness for C10_full_generation_always_completes: a set whose single
item never gets an artifact because every image call fails, yet the run
ends completed with the export flag set. -/
theorem C10_full_generation_always_completes_witness :
    (StampSetCRUD.get { sets := [mkSet "samples_review" none], stamps := [mkStamp 10 1 none] } 1 =
      some (mkSet "samples_review" none)) ∧
    (((StampSetCRUD.get
        (generate_full_stamps
          { sets := [mkSet "samples_review" none], stamps := [mkStamp 10 1 none] }
          1 7 (fun _ => 7) (fun _ => none) 0).1 1).map (fun s => s.status) =
      some "completed") ∧
    ((StampSetCRUD.get
        (generate_full_stamps
          { sets := [mkSet "samples_review" none], stamps := [mkStamp 10 1 none] }
          1 7 (fun _ => 7) (fun _ => none) 0).1 1).map (fun s => s.lora_exported) =
      some true) ∧
    ((∀ i : Nat, (fun _ : Nat => (none : Option (List String))) i = none) →
      (generate_full_stamps
        { sets := [mkSet "samples_review" none], stamps := [mkStamp 10 1 none] }
        1 7 (fun _ => 7) (fun _ => none) 0).1.stamps = [mkStamp 10 1 none])) :=
  ⟨rfl,
    C10_full_generation_always_completes
      { sets := [mkSet "samples_review" none], stamps := [mkStamp 10 1 none] }
      1 (mkSet "samples_review" none) 7 (fun _ => 7) (fun _ => none) 0 rfl⟩

/-! ## Claim C6 -/

/-- C6: full generation over a partially generated set issues image calls
only for items whose snapshot artifact path is falsy (missing), issues one
for every such item, and leaves the stored record of every item that
already has an artifact path entirely unchanged (all fields). -/
theorem C6_full_generation_resumes_idempotently (db : DB) (sid : Nat) (st : StampSet)
    (f : Int) (fp : Nat → Int) (net : Nat → Option (List String)) (now : Nat)
    (hget : StampSetCRUD.get db sid = some st)
    (hids : ((StampCRUD.get_by_set db sid).map (fun s => s.id)).Nodup) :
    (∀ cl ∈ (generate_full_stamps db sid f fp net now).2,
      ∃ y ∈ StampCRUD.get_by_set db sid,
        y.id = cl.stamp_id ∧ y.number = cl.number ∧ truthyStr y.image_path = false) ∧
    (∀ y ∈ StampCRUD.get_by_set db sid, truthyStr y.image_path = false →
      ∃ cl ∈ (generate_full_stamps db sid f fp net now).2,
        cl.stamp_id = y.id ∧ cl.number = y.number) ∧
    (∀ x ∈ StampCRUD.get_by_set db sid, truthyStr x.image_path = true →
      StampCRUD.get (generate_full_stamps db sid f fp net now).1 x.id =
        StampCRUD.get db x.id) := by
  have htrace : (generate_full_stamps db sid f fp net now).2 =
      (full_loop sid st.character_consistency st.reference_image_path
        (if st.character_consistency then
            some (if truthyInt st.seed then st.seed.getD 0 else f) else none)
        fp net (StampCRUD.get_by_set db sid).enum
        (StampSetCRUD.update_status db sid "full_generating" now)).2 := by
    simp only [generate_full_stamps, hget]
    rfl
  have hfinal : ∀ b : Nat,
      StampCRUD.get (generate_full_stamps db sid f fp net now).1 b =
        StampCRUD.get (full_loop sid st.character_consistency st.reference_image_path
          (if st.character_consistency then
              some (if truthyInt st.seed then st.seed.getD 0 else f) else none)
          fp net (StampCRUD.get_by_set db sid).enum
          (StampSetCRUD.update_status db sid "full_generating" now)).1 b := by
    intro b
    simp only [generate_full_stamps, hget]
    exact StampCRUD.get_congr_stamps rfl b
  refine ⟨?_, ?_, ?_⟩
  · intro cl hcl
    rw [htrace] at hcl
    obtain ⟨i, y, hmem, hcall, hmiss⟩ :=
      full_loop_calls_sound _ _ _ _ _ _ _ _ cl hcl
    refine ⟨y, mem_of_mem_enum hmem, ?_, ?_, hmiss⟩
    · rw [hcall]; rfl
    · rw [hcall]; rfl
  · intro y hy hmiss
    obtain ⟨i, hiy⟩ := List.mem_iff_getElem?.mp hy
    have hmemL : (i, y) ∈ (StampCRUD.get_by_set db sid).enum :=
      List.mk_mem_enum_iff_getElem?.mpr hiy
    refine ⟨full_call st.character_consistency st.reference_image_path
        (if st.character_consistency then
            some (if truthyInt st.seed then st.seed.getD 0 else f) else none)
        fp i y, ?_, rfl, rfl⟩
    rw [htrace]
    exact full_loop_calls_complete _ _ _ _ _ _ _ _ i y hmemL hmiss
  · intro x hx hdone
    rw [hfinal x.id]
    have hfr := full_loop_frame sid st.character_consistency st.reference_image_path
      (if st.character_consistency then
          some (if truthyInt st.seed then st.seed.getD 0 else f) else none)
      fp net x.id (StampCRUD.get_by_set db sid).enum
      (StampSetCRUD.update_status db sid "full_generating" now)
      (by
        intro i y hmem hid
        left
        have hy : y ∈ StampCRUD.get_by_set db sid := mem_of_mem_enum hmem
        have hxy : y = x := List.inj_on_of_nodup_map hids hy hx hid
        rw [hxy]; exact hdone)
    rw [hfr]
    exact StampCRUD.get_congr_stamps rfl x.id

/-- Witness for C6_full_generation_resumes_idempotently: item 10 already
has an artifact, item 11 does not; the call trace and the final state are
constrained as the theorem states. -/
theorem C6_full_generation_resumes_idempotently_witness :
    (StampSetCRUD.get
      { sets := [mkSet "samples_review" (some 42)],
        stamps := [mkStamp 10 1 (some "output/1/stamp_01.png"), mkStamp 11 2 none] } 1 =
      some (mkSet "samples_review" (some 42))) ∧
    ((StampCRUD.get_by_set
      { sets := [mkSet "samples_review" (some 42)],
        stamps := [mkStamp 10 1 (some "output/1/stamp_01.png"), mkStamp 11 2 none] } 1).map
        (fun s => s.id)).Nodup ∧
    ((∀ cl ∈ (generate_full_stamps
        { sets := [mkSet "samples_review" (some 42)],
          stamps := [mkStamp 10 1 (some "output/1/stamp_01.png"), mkStamp 11 2 none] }
        1 7 (fun _ => 7) (fun _ => some ["img"]) 0).2,
      ∃ y ∈ StampCRUD.get_by_set
          { sets := [mkSet "samples_review" (some 42)],
            stamps := [mkStamp 10 1 (some "output/1/stamp_01.png"), mkStamp 11 2 none] } 1,
        y.id = cl.stamp_id ∧ y.number = cl.number ∧ truthyStr y.image_path = false) ∧
    (∀ y ∈ StampCRUD.get_by_set
        { sets := [mkSet "samples_review" (some 42)],
          stamps := [mkStamp 10 1 (some "output/1/stamp_01.png"), mkStamp 11 2 none] } 1,
      truthyStr y.image_path = false →
      ∃ cl ∈ (generate_full_stamps
          { sets := [mkSet "samples_review" (some 42)],
            stamps := [mkStamp 10 1 (some "output/1/stamp_01.png"), mkStamp 11 2 none] }
          1 7 (fun _ => 7) (fun _ => some ["img"]) 0).2,
        cl.stamp_id = y.id ∧ cl.number = y.number) ∧
    (∀ x ∈ StampCRUD.get_by_set
        { sets := [mkSet "samples_review" (some 42)],
          stamps := [mkStamp 10 1 (some "output/1/stamp_01.png"), mkStamp 11 2 none] } 1,
      truthyStr x.image_path = true →
      StampCRUD.get (generate_full_stamps
          { sets := [mkSet "samples_review" (some 42)],
            stamps := [mkStamp 10 1 (some "output/1/stamp_01.png"), mkStamp 11 2 none] }
          1 7 (fun _ => 7) (fun _ => some ["img"]) 0).1 x.id =
        StampCRUD.get
          { sets := [mkSet "samples_review" (some 42)],
            stamps := [mkStamp 10 1 (some "output/1/stamp_01.png"), mkStamp 11 2 none] } x.id)) :=
  ⟨rfl, by decide,
    C6_full_generation_resumes_idempotently
      { sets := [mkSet "samples_review" (some 42)],
        stamps := [mkStamp 10 1 (some "output/1/stamp_01.png"), mkStamp 11 2 none] }
      1 (mkSet "samples_review" (some 42)) 7 (fun _ => 7) (fun _ => some ["img"]) 0
      rfl (by decide)⟩

/-! ## Claim C8 -/

/-- C8: the image client returns failures as None values (no exception),
and a failing call at one loop position leaves that item record untouched
while the loop still issues a call for every other artifact-less item, so
the batch is never cancelled. -/
theorem C8_image_client_failure_is_per_item (db : DB) (sid : Nat) (st : StampSet)
    (f : Int) (fp : Nat → Int) (net : Nat → Option (List String)) (now : Nat)
    (i0 : Nat) (x : Stamp)
    (hget : StampSetCRUD.get db sid = some st)
    (hids : ((StampCRUD.get_by_set db sid).map (fun s => s.id)).Nodup)
    (hx : (StampCRUD.get_by_set db sid)[i0]? = some x)
    (hfail : StableDiffusionAPI.generate_image (net i0) = none) :
    (StampCRUD.get (generate_full_stamps db sid f fp net now).1 x.id =
      StampCRUD.get db x.id) ∧
    (∀ y ∈ StampCRUD.get_by_set db sid, truthyStr y.image_path = false →
      ∃ cl ∈ (generate_full_stamps db sid f fp net now).2,
        cl.stamp_id = y.id ∧ cl.number = y.number) ∧
    (∀ r : Option (List String), r = none ∨ r = some [] →
      StableDiffusionAPI.generate_image r = none) := by
  have htrace : (generate_full_stamps db sid f fp net now).2 =
      (full_loop sid st.character_consistency st.reference_image_path
        (if st.character_consistency then
            some (if truthyInt st.seed then st.seed.getD 0 else f) else none)
        fp net (StampCRUD.get_by_set db sid).enum
        (StampSetCRUD.update_status db sid "full_generating" now)).2 := by
    simp only [generate_full_stamps, hget]
    rfl
  have hfinal : ∀ b : Nat,
      StampCRUD.get (generate_full_stamps db sid f fp net now).1 b =
        StampCRUD.get (full_loop sid st.character_consistency st.reference_image_path
          (if st.character_consistency then
              some (if truthyInt st.seed then st.seed.getD 0 else f) else none)
          fp net (StampCRUD.get_by_set db sid).enum
          (StampSetCRUD.update_status db sid "full_generating" now)).1 b := by
    intro b
    simp only [generate_full_stamps, hget]
    exact StampCRUD.get_congr_stamps rfl b
  refine ⟨?_, ?_, ?_⟩
  · rw [hfinal x.id]
    have hfr := full_loop_frame sid st.character_consistency st.reference_image_path
      (if st.character_consistency then
          some (if truthyInt st.seed then st.seed.getD 0 else f) else none)
      fp net x.id (StampCRUD.get_by_set db sid).enum
      (StampSetCRUD.update_status db sid "full_generating" now)
      (by
        intro i y hmem hid
        right
        have hy : y ∈ StampCRUD.get_by_set db sid := mem_of_mem_enum hmem
        have hxmem : x ∈ StampCRUD.get_by_set db sid := List.getElem?_mem hx
        have hxy : y = x := List.inj_on_of_nodup_map hids hy hxmem hid
        have hiy : (StampCRUD.get_by_set db sid)[i]? = some y :=
          List.mem_enum_iff_getElem?.mp hmem
        rw [hxy] at hiy
        have hii : i = i0 :=
          enum_index_unique (List.Nodup.of_map _ hids) hiy hx
        rw [hii, hfail]
        rfl)
    rw [hfr]
    exact StampCRUD.get_congr_stamps rfl x.id
  · intro y hy hmiss
    obtain ⟨i, hiy⟩ := List.mem_iff_getElem?.mp hy
    have hmemL : (i, y) ∈ (StampCRUD.get_by_set db sid).enum :=
      List.mk_mem_enum_iff_getElem?.mpr hiy
    refine ⟨full_call st.character_consistency st.reference_image_path
        (if st.character_consistency then
            some (if truthyInt st.seed then st.seed.getD 0 else f) else none)
        fp i y, ?_, rfl, rfl⟩
    rw [htrace]
    exact full_loop_calls_complete _ _ _ _ _ _ _ _ i y hmemL hmiss
  · rintro r (rfl | rfl) <;> rfl

/-- Witness for C8_image_client_failure_is_per_item: two artifact-less
items; the call for the first (loop index 0) fails while the second
succeeds, and the first item record is untouched. -/
theorem C8_image_client_failure_is_per_item_witness :
    (StampSetCRUD.get
      { sets := [mkSet "samples_review" (some 42)],
        stamps := [mkStamp 10 1 none, mkStamp 11 2 none] } 1 =
      some (mkSet "samples_review" (some 42))) ∧
    ((StampCRUD.get_by_set
      { sets := [mkSet "samples_review" (some 42)],
        stamps := [mkStamp 10 1 none, mkStamp 11 2 none] } 1).map
        (fun s => s.id)).Nodup ∧
    ((StampCRUD.get_by_set
      { sets := [mkSet "samples_review" (some 42)],
        stamps := [mkStamp 10 1 none, mkStamp 11 2 none] } 1)[0]? =
      some (mkStamp 10 1 none)) ∧
    (StableDiffusionAPI.generate_image
      ((fun i => if i = 0 then none else some ["img"]) 0) = none) ∧
    ((StampCRUD.get (generate_full_stamps
        { sets := [mkSet "samples_review" (some 42)],
          stamps := [mkStamp 10 1 none, mkStamp 11 2 none] }
        1 7 (fun _ => 7) (fun i => if i = 0 then none else some ["img"]) 0).1
        (mkStamp 10 1 none).id =
      StampCRUD.get
        { sets := [mkSet "samples_review" (some 42)],
          stamps := [mkStamp 10 1 none, mkStamp 11 2 none] } (mkStamp 10 1 none).id) ∧
    (∀ y ∈ StampCRUD.get_by_set
        { sets := [mkSet "samples_review" (some 42)],
          stamps := [mkStamp 10 1 none, mkStamp 11 2 none] } 1,
      truthyStr y.image_path = false →
      ∃ cl ∈ (generate_full_stamps
          { sets := [mkSet "samples_review" (some 42)],
            stamps := [mkStamp 10 1 none, mkStamp 11 2 none] }
          1 7 (fun _ => 7) (fun i => if i = 0 then none else some ["img"]) 0).2,
        cl.stamp_id = y.id ∧ cl.number = y.number) ∧
    (∀ r : Option (List String), r = none ∨ r = some [] →
      StableDiffusionAPI.generate_image r = none)) :=
  ⟨rfl, by decide, rfl, rfl,
    C8_image_client_failure_is_per_item
      { sets := [mkSet "samples_review" (some 42)],
        stamps := [mkStamp 10 1 none, mkStamp 11 2 none] }
      1 (mkSet "samples_review" (some 42)) 7 (fun _ => 7)
      (fun i => if i = 0 then none else some ["img"]) 0 0 (mkStamp 10 1 none)
      rfl (by decide) rfl rfl⟩

/-! ## Claim C3 -/

/-- C3 counterexample: with consistency enabled and persisted base seed 42
(and a sample-stage fresh draw that also equals 42, so the persisted seed
is unchanged), the item with ordinal 1 derives seed 42 + 0 = 42 at the
sample stage (0-based loop index) but 42 + 1 = 43 at the full stage
(ordinal number): the same ordinal derives different seeds in the two
stages, so the derived seed is not S + k everywhere. -/
theorem C3_counterexample_sample_full_seed_mismatch :
    ((generate_sample_stamps seededDB 1 42 (fun _ => 0) (fun _ => some ["img"]) none 0).2.map
        (fun cl => cl.seed) = [42]) ∧
    ((generate_full_stamps seededDB 1 0 (fun _ => 0) (fun _ => some ["img"]) 0).2.map
        (fun cl => cl.seed) = [43]) ∧
    (42 : Int) ≠ 43 :=
  ⟨rfl, rfl, by decide⟩

/-- C3 amended: with consistency enabled and a truthy persisted base seed S,
every full-stage image call for the item with ordinal k derives exactly
S + k (deterministically, whatever the network or fresh-draw oracles do),
and distinct ordinals derive distinct seeds within that stage; the sample
stage instead ignores the persisted seed and derives B + i from its own
freshly drawn base B, where i is the 0-based position among the first five
items, so the same ordinal generally derives different seeds at each
stage. -/
theorem C3_amended_seed_policy (db : DB) (sid : Nat) (st : StampSet) (S : Int)
    (f : Int) (fp : Nat → Int) (net : Nat → Option (List String)) (now : Nat)
    (B : Int) (fp2 : Nat → Int) (net2 : Nat → Option (List String)) (lp : Option String)
    (hget : StampSetCRUD.get db sid = some st)
    (hcons : st.character_consistency = true)
    (hseed : st.seed = some S) (hS : S ≠ 0) (hB : B ≠ 0) :
    (∀ cl ∈ (generate_full_stamps db sid f fp net now).2,
      cl.seed = S + cl.number) ∧
    (∀ cl1 ∈ (generate_full_stamps db sid f fp net now).2,
      ∀ cl2 ∈ (generate_full_stamps db sid f fp net now).2,
        cl1.number ≠ cl2.number → cl1.seed ≠ cl2.seed) ∧
    ((generate_sample_stamps db sid B fp2 net2 lp now).2.map (fun cl => cl.seed) =
      (List.range ((StampCRUD.get_by_set db sid).take 5).length).map
        (fun i : Nat => B + (i : Int))) := by
  have hsd : (if st.character_consistency then
      some (if truthyInt st.seed then st.seed.getD 0 else f) else none) = some S := by
    simp [hcons, hseed, truthyInt, hS]
  have htrace : (generate_full_stamps db sid f fp net now).2 =
      (full_loop sid st.character_consistency st.reference_image_path (some S)
        fp net (StampCRUD.get_by_set db sid).enum
        (StampSetCRUD.update_status db sid "full_generating" now)).2 := by
    simp only [generate_full_stamps, hget, hsd]
    rfl
  have hseed_eq : ∀ cl ∈ (generate_full_stamps db sid f fp net now).2,
      cl.seed = S + cl.number := by
    intro cl hcl
    rw [htrace] at hcl
    obtain ⟨i, y, hmem, hcall, hmiss⟩ :=
      full_loop_calls_sound _ _ _ _ _ _ _ _ cl hcl
    rw [hcall]
    simp [full_call, truthyInt, hS]
  refine ⟨hseed_eq, ?_, ?_⟩
  · intro cl1 h1 cl2 h2 hnum heq
    apply hnum
    have e1 := hseed_eq cl1 h1
    have e2 := hseed_eq cl2 h2
    rw [e1, e2] at heq
    have hcast : (cl1.number : Int) = cl2.number := by omega
    exact_mod_cast hcast
  · have hstamps : StampCRUD.get_by_set
        (StampSetCRUD.update_status db sid "samples_generating" now) sid =
        StampCRUD.get_by_set db sid := rfl
    by_cases hemp : ((StampCRUD.get_by_set db sid).take 5).isEmpty
    · have hsh : (generate_sample_stamps db sid B fp2 net2 lp now).2 = [] := by
        simp only [generate_sample_stamps, hget, hcons, hstamps]
        rw [if_pos hemp]
      rw [hsh, List.isEmpty_iff.mp hemp]
      rfl
    · have hsh : (generate_sample_stamps db sid B fp2 net2 lp now).2 =
          (sample_loop sid st.character_consistency st.reference_image_path (some B)
            fp2 net2 lp ((StampCRUD.get_by_set db sid).take 5).enum
            (StampSetCRUD.update_seed
              (StampSetCRUD.update_status db sid "samples_generating" now) sid B)).2 := by
        simp only [generate_sample_stamps, hget, hcons, hstamps]
        rw [if_neg hemp]
        rfl
      have hpt : ∀ p ∈ ((StampCRUD.get_by_set db sid).take 5).enum,
          ((fun cl => cl.seed) ∘ fun p => sample_call sid st.character_consistency
            st.reference_image_path (some B) fp2 lp p.1 p.2) p = B + (p.1 : Int) := by
        intro p _
        simp [sample_call, truthyInt, hB]
      rw [hsh, sample_loop_calls, List.map_map, List.map_congr_left hpt]
      exact map_fst_fun_enum ((StampCRUD.get_by_set db sid).take 5)
        (fun i : Nat => B + (i : Int))

/-- Witness for C3_amended_seed_policy at the concrete fixture: persisted
seed 42, one item with ordinal 1; the full-stage call list derives 43 and
the sample-stage call list derives 42. -/
theorem C3_amended_seed_policy_witness :
    (StampSetCRUD.get seededDB 1 = some (mkSet "samples_review" (some 42))) ∧
    (mkSet "samples_review" (some 42)).character_consistency = true ∧
    (mkSet "samples_review" (some 42)).seed = some 42 ∧
    (42 : Int) ≠ 0 ∧
    ((∀ cl ∈ (generate_full_stamps seededDB 1 7 (fun _ => 7) (fun _ => some ["img"]) 0).2,
      cl.seed = 42 + cl.number) ∧
    (∀ cl1 ∈ (generate_full_stamps seededDB 1 7 (fun _ => 7) (fun _ => some ["img"]) 0).2,
      ∀ cl2 ∈ (generate_full_stamps seededDB 1 7 (fun _ => 7) (fun _ => some ["img"]) 0).2,
        cl1.number ≠ cl2.number → cl1.seed ≠ cl2.seed) ∧
    ((generate_sample_stamps seededDB 1 42 (fun _ => 9) (fun _ => none) none 0).2.map
        (fun cl => cl.seed) =
      (List.range ((StampCRUD.get_by_set seededDB 1).take 5).length).map
        (fun i : Nat => 42 + (i : Int)))) :=
  ⟨rfl, rfl, rfl, by decide,
    C3_amended_seed_policy seededDB 1 (mkSet "samples_review" (some 42)) 42
      7 (fun _ => 7) (fun _ => some ["img"]) 0 42 (fun _ => 9) (fun _ => none) none
      rfl rfl rfl (by decide) (by decide)⟩

end LineStampTool
